import Mathlib

/-!
Shallow embedding of `src/screencast.rs` from `dlzht/xdp-screencast`:
a client driving the xdg-desktop-portal ScreenCast handshake
(CreateSession, SelectSources, Start, OpenPipeWireRemote) over D-Bus,
and the structured-value decoder turning the broker's loosely typed
responses into typed `SelectedSource` records.

Transport is abstracted as a `Broker` environment providing the
completion events; the orchestrator functions are pure state passing
and additionally emit the list of outgoing proxy calls, so properties
about which requests are issued (and with which payloads) become
statements about that trace.
-/

namespace XdpScreencast

/-- Embedding of `zbus::zvariant::Value` restricted to the variants the
repository manipulates: `U32`, `I32`, `Bool`, `Str`, `Structure`,
`Dict` (with string keys, as all dicts in play have signature `a{sv}`)
and `Array`. -/
inductive Value where
  | u32 : Nat → Value
  | i32 : Int → Value
  | bool : Bool → Value
  | str : String → Value
  | structure : List Value → Value
  | dict : List (String × Value) → Value
  | array : List Value → Value
deriving Repr

/-- Lookup in a string-keyed dictionary, as `zvariant::Dict::get` /
`HashMap::remove` observe it: the value at the first matching key. -/
def dictGet (entries : List (String × Value)) (key : String) : Option Value :=
  (entries.find? (fun p => p.1 == key)).map Prod.snd

/-- Embedding of the decode-side `zvariant::Error` values the code can
produce: `Error::IncorrectType` (shape/type mismatch) and
`Error::Message s`. -/
inductive DecodeError where
  | incorrectType
  | message : String → DecodeError
deriving DecidableEq, Repr

/-- The `SelectedSource` record of `screencast.rs`: broker-assigned `id`,
optional fixed `width`/`height`, and the numeric source kind `type_`. -/
structure SelectedSource where
  id : Nat
  width : Option Int
  height : Option Int
  type_ : Nat
deriving DecidableEq, Repr

/-- `SelectedSource::new`: width and height start absent. -/
def SelectedSource.new (id type_ : Nat) : SelectedSource :=
  { id := id, width := none, height := none, type_ := type_ }

/-- Embedding of `impl TryFrom<Value> for SelectedSource`.  The input
must be a two-field structure `(U32 id, Dict attrs)`; the required
`source_type` attribute must be present (else
`Error::Message "fail to get source_type"`) and numeric (else the
`u32` conversion inside `Dict::get` fails with `IncorrectType`); the
optional `size` attribute sets `width`/`height` only when it is a
structure whose first two fields are both `I32`, and is otherwise
silently ignored.  Any other top-level shape is `IncorrectType`. -/
def decodeSource (value : Value) : Except DecodeError SelectedSource :=
  match value with
  | .structure [.u32 id, .dict source] =>
    match dictGet source "source_type" with
    | none => .error (.message "fail to get source_type")
    | some (.u32 sourceType) =>
      let result := SelectedSource.new id sourceType
      let result :=
        match dictGet source "size" with
        | some (.structure size) =>
          match size.head?, size.get? 1 with
          | some (.i32 width), some (.i32 height) =>
            { result with width := some width, height := some height }
          | _, _ => result
        | _ => result
      .ok result
    | some _ => .error .incorrectType
  | _ => .error .incorrectType

/-- Embedding of `Vec::<SelectedSource>::try_from(Value)`: the value must
be an array and every element must decode. -/
def decodeSourceList : List Value → Except DecodeError (List SelectedSource)
  | [] => .ok []
  | v :: vs =>
    match decodeSource v, decodeSourceList vs with
    | .ok s, .ok ss => .ok (s :: ss)
    | .error e, _ => .error e
    | _, .error e => .error e

/-- Embedding of the `streams` result conversion in `start_select`. -/
def decodeSources (v : Value) : Except DecodeError (List SelectedSource) :=
  match v with
  | .array items => decodeSourceList items
  | _ => .error .incorrectType

/-- `CursorMode` configuration enum. -/
inductive CursorMode where
  | hidden
  | embedded
  | metadata
deriving DecidableEq, Repr

/-- `CursorMode::to_u32`. -/
def CursorMode.toU32 : CursorMode → Nat
  | .hidden => 1
  | .embedded => 2
  | .metadata => 4

/-- `PersistMode` configuration enum. -/
inductive PersistMode where
  | doNotPersist
  | asApplication
  | untilRevoked
deriving DecidableEq, Repr

/-- `PersistMode::to_u32`. -/
def PersistMode.toU32 : PersistMode → Nat
  | .doNotPersist => 0
  | .asApplication => 1
  | .untilRevoked => 2

/-- The `SourceType` bitflags value (`MONITOR = 1`, `WINDOW = 2`,
`VIRTUAL = 4`), carried as its raw `u32` bits. -/
structure SourceType where
  bits : Nat
deriving DecidableEq, Repr

/-- Embedding of the `zbus::Error` values the orchestrator produces:
`Error::Failure(msg)` and `Error::Variant(e)`. -/
inductive ZError where
  | failure : String → ZError
  | variant : DecodeError → ZError
deriving DecidableEq, Repr

/-- D-Bus object-path character set: `[A-Za-z0-9_]`. -/
def isPathChar (c : Char) : Bool :=
  c.isAlpha || c.isDigit || c = '_'

/-- Scanner for the part of an object path after the leading slash:
elements of path characters separated by single slashes, no trailing
slash.  `inElem` records whether at least one element character was
seen since the last slash. -/
def scanPath : List Char → Bool → Bool
  | [], inElem => inElem
  | c :: cs, inElem =>
    if c = '/' then inElem && scanPath cs false
    else isPathChar c && scanPath cs true

/-- D-Bus object-path validity, as `zvariant::ObjectPath::try_from`
checks it: `/`, or a leading `/` followed by non-empty elements of
`[A-Za-z0-9_]` separated by single `/`, with no trailing `/`. -/
def isValidObjectPath (s : String) : Bool :=
  match s.data with
  | [] => false
  | c :: rest => c = '/' && (rest.isEmpty || scanPath rest false)

/-- One outgoing proxy call of the `ZBusScreencast` interface, with the
arguments as the code builds them. -/
inductive Call where
  | createSession (options : List (String × Value))
  | selectSources (sessionHandle : String) (options : List (String × Value))
  | start (sessionHandle : String) (parentWindow : String)
      (options : List (String × Value))
  | openPipeWireRemote (sessionHandle : String) (options : List (String × Value))
deriving Repr

/-- The broker environment: for each awaited request, the single
completion event the `Response` signal stream yields (`none` models the
stream ending without an event), and the file descriptor returned
directly by `OpenPipeWireRemote`. -/
structure Broker where
  createSessionResponse : Option (Nat × List (String × Value))
  startResponse : Option (Nat × List (String × Value))
  openRemoteFd : Int

/-- The `ScreenCast` struct's state: caller configuration, accumulated
selected sources, whether a connection was established
(`connection.is_some()`), the current session object path, and the
request-token counter. -/
structure ScreenCast where
  cursorMode : CursorMode
  sourceType : SourceType
  persistMode : PersistMode
  multipleSource : Bool
  selectedSources : List SelectedSource
  hasConnection : Bool
  session : String
  counter : Nat
deriving Repr

/-- `ScreenCast::default()`: default configuration, no connection, the
default (root) object path, counter 0. -/
def ScreenCast.default : ScreenCast :=
  { cursorMode := .hidden
    sourceType := ⟨0⟩
    persistMode := .doNotPersist
    multipleSource := false
    selectedSources := []
    hasConnection := false
    session := "/"
    counter := 0 }

/-- `ScreenCast::create_session`: sends a payload whose
`session_handle_token` and `handle_token` are both
`self.counter.to_string()`, increments the counter, awaits one
completion event, and on status 0 extracts `session_handle`, which must
convert to a string and then to a valid object path.  Returns the
updated state (mutations before an error persist, as through `&mut
self`), the result, and the emitted calls. -/
def create_session (b : Broker) (s : ScreenCast) :
    ScreenCast × Except ZError Unit × List Call :=
  let token := toString s.counter
  let payload := [("session_handle_token", Value.str token),
                  ("handle_token", Value.str token)]
  let calls := [Call.createSession payload]
  let s := { s with counter := s.counter + 1 }
  match b.createSessionResponse with
  | none =>
    (s, .error (.failure "create session: fail to receive response"), calls)
  | some (status, results) =>
    let sessionHandle := if status = 0 then dictGet results "session_handle" else none
    match sessionHandle with
    | none =>
      (s, .error (.failure "create session: fail to get session_handle"), calls)
    | some (.str path) =>
      if isValidObjectPath path then
        ({ s with session := path }, .ok (), calls)
      else
        (s, .error (.variant .incorrectType), calls)
    | some _ => (s, .error (.variant .incorrectType), calls)

/-- `ScreenCast::prepare_select`: sends the configuration plus a fresh
`handle_token` built from the counter, increments the counter, and —
the completion event deliberately not being awaited — succeeds. -/
def prepare_select (s : ScreenCast) :
    ScreenCast × Except ZError Unit × List Call :=
  let token := toString s.counter
  let payload := [("handle_token", Value.str token),
                  ("multiple", Value.bool s.multipleSource),
                  ("types", Value.u32 s.sourceType.bits),
                  ("persist_mode", Value.u32 s.persistMode.toU32),
                  ("cursor_mode", Value.u32 s.cursorMode.toU32)]
  ({ s with counter := s.counter + 1 }, .ok (),
   [Call.selectSources s.session payload])

/-- `ScreenCast::start_select`: sends a fresh `handle_token`, increments
the counter, awaits one completion event, and on status 0 extracts and
decodes the `streams` entry into `selected_sources`. -/
def start_select (b : Broker) (s : ScreenCast) :
    ScreenCast × Except ZError Unit × List Call :=
  let token := toString s.counter
  let payload := [("handle_token", Value.str token)]
  let calls := [Call.start s.session "" payload]
  let s := { s with counter := s.counter + 1 }
  match b.startResponse with
  | none =>
    (s, .error (.failure "start select: fail to receive response"), calls)
  | some (status, results) =>
    let sources := if status = 0 then dictGet results "streams" else none
    match sources with
    | none =>
      (s, .error (.failure "start select: fail to get streams"), calls)
    | some v =>
      match decodeSources v with
      | .error e => (s, .error (.variant e), calls)
      | .ok list => ({ s with selectedSources := list }, .ok (), calls)

/-- `ScreenCast::open_remote`: increments the counter, then calls
`OpenPipeWireRemote` with an empty options map; the file descriptor is
the call's direct result. -/
def open_remote (b : Broker) (s : ScreenCast) :
    ScreenCast × Except ZError Int × List Call :=
  let s := { s with counter := s.counter + 1 }
  (s, .ok b.openRemoteFd, [Call.openPipeWireRemote s.session []])

/-- `ScreenCast::screencast`: establishes the connection, then runs
create_session, prepare_select, start_select and open_remote strictly
in order, each `?` short-circuiting the rest. -/
def screencast (b : Broker) (s : ScreenCast) :
    ScreenCast × Except ZError Int × List Call :=
  let s := { s with hasConnection := true }
  let (s, r1, c1) := create_session b s
  match r1 with
  | .error e => (s, .error e, c1)
  | .ok () =>
    let (s, _, c2) := prepare_select s
    let (s, r3, c3) := start_select b s
    match r3 with
    | .error e => (s, .error e, c1 ++ c2 ++ c3)
    | .ok () =>
      let (s, r4, c4) := open_remote b s
      (s, r4, c1 ++ c2 ++ c3 ++ c4)

/-- `ScreenCast::shutdown`: if a connection exists, return the outcome
of closing it (`closeResult`, the environment's answer to
`Connection::close`); otherwise succeed without doing anything. -/
def shutdown (s : ScreenCast) (closeResult : Except ZError Unit) :
    Except ZError Unit :=
  if s.hasConnection then closeResult else .ok ()

/-- The `handle_token` entry of a call's options, if any: the request
token the call carries. -/
def Call.requestToken : Call → Option Value
  | .createSession options => dictGet options "handle_token"
  | .selectSources _ options => dictGet options "handle_token"
  | .start _ _ options => dictGet options "handle_token"
  | .openPipeWireRemote _ options => dictGet options "handle_token"

/-- Whether a call is a `CreateSession` request. -/
def Call.isCreateSession : Call → Bool
  | .createSession _ => true
  | _ => false

/-- The options map a call carries. -/
def Call.optionsOf : Call → List (String × Value)
  | .createSession options => options
  | .selectSources _ options => options
  | .start _ _ options => options
  | .openPipeWireRemote _ options => options

/-- A broker whose two awaited completion events succeed with status 0,
carrying a valid session handle and an empty stream list. -/
def happyBroker : Broker :=
  { createSessionResponse := some (0, [("session_handle", .str "/org/fdo/session1")])
    startResponse := some (0, [("streams", .array [])])
    openRemoteFd := 5 }

/-- A broker whose CreateSession completion event has status 0 but whose
result dictionary lacks the `session_handle` entry. -/
def noHandleBroker : Broker :=
  { createSessionResponse := some (0, [("other", .u32 9)])
    startResponse := none
    openRemoteFd := 0 }

/- ## Theorems for the claims -/

/-- C5: the well-formed structured value
`{id: 7, {source_type: 2, size: (1920, 1080)}}` decodes to
`SelectedSource{id:7, source_kind:2, width:Some(1920),
height:Some(1080)}`. -/
theorem C5_decode_round_trip :
    decodeSource (.structure [.u32 7,
      .dict [("source_type", .u32 2),
             ("size", .structure [.i32 1920, .i32 1080])]]) =
      .ok { id := 7, width := some 1920, height := some 1080, type_ := 2 } := by
  rfl

/-- C6: for every input whose attribute dictionary lacks the
`source_type` entry, `decode_source` fails with the missing-attribute
error naming `source_type`
(`zvariant::Error::Message "fail to get source_type"`). -/
theorem C6_missing_source_type (id : Nat) (attrs : List (String × Value))
    (h : dictGet attrs "source_type" = none) :
    decodeSource (.structure [.u32 id, .dict attrs]) =
      .error (.message "fail to get source_type") := by
  simp only [decodeSource, h]

/-- C6 witness: the spec's example `{id: 1, {}}`. -/
theorem C6_missing_source_type_witness :
    decodeSource (.structure [.u32 1, .dict []]) =
      .error (.message "fail to get source_type") :=
  C6_missing_source_type 1 [] rfl

/-- C8: every `SelectedSource` produced by `decode_source` has its
`width` and `height` fields both present or both absent (`id` and
`type_`/source kind are always present as non-optional fields of the
record type). -/
theorem C8_size_both_or_neither (v : Value) (r : SelectedSource)
    (h : decodeSource v = .ok r) :
    (r.width = none ↔ r.height = none) := by
  unfold decodeSource at h
  split at h
  · split at h
    · exact absurd h (by simp)
    · split at h
      · split at h
        · cases h
          simp [SelectedSource.new]
        · cases h
          simp [SelectedSource.new]
      · cases h
        simp [SelectedSource.new]
    · exact absurd h (by simp)
  · exact absurd h (by simp)

/-- C8 witness: applied to the well-formed value with a fixed size. -/
theorem C8_size_both_or_neither_witness :
    ({ id := 7, width := some 1920, height := some 1080, type_ := 2 :
        SelectedSource }.width = none ↔
     { id := 7, width := some 1920, height := some 1080, type_ := 2 :
        SelectedSource }.height = none) :=
  C8_size_both_or_neither
    (.structure [.u32 7,
      .dict [("source_type", .u32 2),
             ("size", .structure [.i32 1920, .i32 1080])]])
    { id := 7, width := some 1920, height := some 1080, type_ := 2 } rfl

/-- C3 counterexample: a present-but-malformed `size` of wrong arity
(three elements) does NOT yield absent width/height — the decoder takes
the first two numeric elements and sets both, unlike the size-missing
record, refuting the claim for every malformed (wrong-arity) size. -/
theorem C3_counterexample :
    decodeSource (.structure [.u32 3,
      .dict [("source_type", .u32 1),
             ("size", .structure [.i32 1920, .i32 1080, .i32 30])]]) =
      .ok { id := 3, width := some 1920, height := some 1080, type_ := 1 } ∧
    decodeSource (.structure [.u32 3, .dict [("source_type", .u32 1)]]) =
      .ok { id := 3, width := none, height := none, type_ := 1 } :=
  ⟨rfl, rfl⟩

/-- C3 amended: if `size` is present but its first two elements are not
both `I32` values (missing second element, or non-numeric first/second
element), decoding succeeds with width and height both absent, the same
record as when `size` is missing entirely; in particular the spec's
`("bad","bad")` example.  (A size whose first two elements are numeric
sets width/height even at wrong arity.) -/
theorem C3_lenient_size (id st : Nat) (attrs attrs2 : List (String × Value))
    (sizeFields : List Value)
    (hst : dictGet attrs "source_type" = some (.u32 st))
    (hsz : dictGet attrs "size" = some (.structure sizeFields))
    (hmal : ∀ w h, ¬(sizeFields.head? = some (.i32 w) ∧
                     sizeFields.get? 1 = some (.i32 h)))
    (hst2 : dictGet attrs2 "source_type" = some (.u32 st))
    (hsz2 : dictGet attrs2 "size" = none) :
    decodeSource (.structure [.u32 id, .dict attrs]) =
      .ok { id := id, width := none, height := none, type_ := st } ∧
    decodeSource (.structure [.u32 id, .dict attrs2]) =
      .ok { id := id, width := none, height := none, type_ := st } := by
  constructor
  · simp only [decodeSource, hst, hsz]
    split
    · rename_i w h hw hh
      exact absurd ⟨hw, hh⟩ (hmal w h)
    · rfl
  · simp only [decodeSource, hst2, hsz2]
    rfl

/-- C3 witness: the spec's `("bad","bad")` example against the same
record with `size` absent. -/
theorem C3_lenient_size_witness :
    decodeSource (.structure [.u32 3,
      .dict [("source_type", .u32 1),
             ("size", .structure [.str "bad", .str "bad"])]]) =
      .ok { id := 3, width := none, height := none, type_ := 1 } ∧
    decodeSource (.structure [.u32 3, .dict [("source_type", .u32 1)]]) =
      .ok { id := 3, width := none, height := none, type_ := 1 } :=
  C3_lenient_size 3 1
    [("source_type", .u32 1), ("size", .structure [.str "bad", .str "bad"])]
    [("source_type", .u32 1)]
    [.str "bad", .str "bad"]
    rfl rfl (by intro w h hc; cases hc.1) rfl rfl

/-- C9: shutdown returns the connection-close outcome when a connection
exists and is a successful no-op when none exists; on a state with no
connection it never fails, whatever the close outcome would be. -/
theorem C9_shutdown_idempotent (s : ScreenCast) (closeResult : Except ZError Unit) :
    (s.hasConnection = false → shutdown s closeResult = .ok ()) ∧
    (s.hasConnection = true → shutdown s closeResult = closeResult) := by
  constructor <;> intro h <;> simp [shutdown, h]

/-- C9 witness: a state with no connection (as after teardown) succeeds
even when closing would have failed. -/
theorem C9_shutdown_idempotent_witness :
    shutdown ScreenCast.default (.error (.failure "closed")) = .ok () :=
  (C9_shutdown_idempotent ScreenCast.default (.error (.failure "closed"))).1 rfl

/-- C2 counterexample: the one CreateSession request issued from a fresh
session carries `session_handle_token` and `handle_token` both equal to
`"0"` — the two tokens are equal, refuting that they are never equal. -/
theorem C2_counterexample :
    (create_session happyBroker ScreenCast.default).2.2 =
      [Call.createSession
        [("session_handle_token", .str "0"), ("handle_token", .str "0")]] :=
  rfl

/-- C2 amended: every CreateSession request carries a session-identity
token and a request-identity token that are both the decimal rendering
of the current counter value, hence always equal strings. -/
theorem C2_tokens_equal (b : Broker) (s : ScreenCast) :
    (create_session b s).2.2 =
      [Call.createSession
        [("session_handle_token", .str (toString s.counter)),
         ("handle_token", .str (toString s.counter))]] := by
  unfold create_session
  dsimp only
  repeat' split
  all_goals rfl

/-- Helper: when the completion event's dictionary yields no
`session_handle` (non-zero status, or zero status with the entry
absent), `create_session` returns the missing-handle failure and emits
exactly the one CreateSession call. -/
theorem create_session_no_handle (b : Broker) (s : ScreenCast)
    (status : Nat) (res : List (String × Value))
    (h1 : b.createSessionResponse = some (status, res))
    (h2 : status = 0 → dictGet res "session_handle" = none) :
    create_session b s =
      ({ s with counter := s.counter + 1 },
       .error (.failure "create session: fail to get session_handle"),
       [Call.createSession
         [("session_handle_token", .str (toString s.counter)),
          ("handle_token", .str (toString s.counter))]]) := by
  have hnone : (if status = 0 then dictGet res "session_handle" else none) = none := by
    by_cases hz : status = 0
    · simp [hz, h2 hz]
    · simp [hz]
  simp only [create_session, h1]
  rw [hnone]

/-- Helper: when the completion event's dictionary yields no `streams`
(non-zero status, or zero status with the entry absent),
`start_select` returns the missing-streams failure and emits exactly
the one Start call. -/
theorem start_select_no_streams (b : Broker) (s : ScreenCast)
    (status : Nat) (res : List (String × Value))
    (h1 : b.startResponse = some (status, res))
    (h2 : status = 0 → dictGet res "streams" = none) :
    start_select b s =
      ({ s with counter := s.counter + 1 },
       .error (.failure "start select: fail to get streams"),
       [Call.start s.session ""
         [("handle_token", .str (toString s.counter))]]) := by
  have hnone : (if status = 0 then dictGet res "streams" else none) = none := by
    by_cases hz : status = 0
    · simp [hz, h2 hz]
    · simp [hz]
  simp only [start_select, h1]
  rw [hnone]

/-- C4: if CreateSession's completion event carries a result dictionary
lacking `session_handle`, the whole screencast run fails with the
create-session error, and the emitted trace is exactly the one
CreateSession call — SelectSources, Start and OpenPipeWireRemote are
never issued. -/
theorem C4_missing_session_handle (b : Broker) (s : ScreenCast)
    (status : Nat) (res : List (String × Value))
    (h1 : b.createSessionResponse = some (status, res))
    (h2 : dictGet res "session_handle" = none) :
    (screencast b s).2.1 =
      .error (.failure "create session: fail to get session_handle") ∧
    (screencast b s).2.2 =
      [Call.createSession
        [("session_handle_token", .str (toString s.counter)),
         ("handle_token", .str (toString s.counter))]] := by
  have hcs := create_session_no_handle b { s with hasConnection := true }
    status res h1 (fun _ => h2)
  simp only [screencast, hcs]
  constructor <;> trivial

/-- C4 witness: a zero-status event whose dictionary has no
`session_handle` entry, from a fresh session. -/
theorem C4_missing_session_handle_witness :
    (screencast noHandleBroker ScreenCast.default).2.1 =
      .error (.failure "create session: fail to get session_handle") ∧
    (screencast noHandleBroker ScreenCast.default).2.2 =
      [Call.createSession
        [("session_handle_token", .str "0"), ("handle_token", .str "0")]] :=
  C4_missing_session_handle noHandleBroker ScreenCast.default 0
    [("other", .u32 9)] rfl rfl

/-- C10: for any non-zero completion status, CreateSession and Start
discard the event's result dictionary entirely (whatever it contains)
and fail with exactly the same error as a zero-status event whose
dictionary lacks the expected field; the status value does not appear
in the returned error. -/
theorem C10_nonzero_status_discarded
    (b b0 c c0 : Broker) (s s0 t t0 : ScreenCast)
    (status : Nat) (res res0 res1 res10 : List (String × Value))
    (hstatus : status ≠ 0)
    (h1 : b.createSessionResponse = some (status, res))
    (h2 : b0.createSessionResponse = some (0, res0))
    (h3 : dictGet res0 "session_handle" = none)
    (h4 : c.startResponse = some (status, res1))
    (h5 : c0.startResponse = some (0, res10))
    (h6 : dictGet res10 "streams" = none) :
    (create_session b s).2.1 =
      .error (.failure "create session: fail to get session_handle") ∧
    (create_session b s).2.1 = (create_session b0 s0).2.1 ∧
    (start_select c t).2.1 =
      .error (.failure "start select: fail to get streams") ∧
    (start_select c t).2.1 = (start_select c0 t0).2.1 := by
  have e1 := create_session_no_handle b s status res h1 (fun hz => absurd hz hstatus)
  have e2 := create_session_no_handle b0 s0 0 res0 h2 (fun _ => h3)
  have e3 := start_select_no_streams c t status res1 h4 (fun hz => absurd hz hstatus)
  have e4 := start_select_no_streams c0 t0 0 res10 h5 (fun _ => h6)
  rw [e1, e2, e3, e4]
  exact ⟨rfl, rfl, rfl, rfl⟩

/-- C10 witness: status 2 with a dictionary that DOES contain the
expected fields, against status 0 with them missing — same errors. -/
theorem C10_nonzero_status_discarded_witness :
    (create_session
        ⟨some (2, [("session_handle", .str "/org/fdo/session1")]), none, 0⟩
        ScreenCast.default).2.1 =
      .error (.failure "create session: fail to get session_handle") ∧
    (create_session
        ⟨some (2, [("session_handle", .str "/org/fdo/session1")]), none, 0⟩
        ScreenCast.default).2.1 =
      (create_session ⟨some (0, []), none, 0⟩ ScreenCast.default).2.1 ∧
    (start_select ⟨none, some (2, [("streams", .array [])]), 0⟩
        ScreenCast.default).2.1 =
      .error (.failure "start select: fail to get streams") ∧
    (start_select ⟨none, some (2, [("streams", .array [])]), 0⟩
        ScreenCast.default).2.1 =
      (start_select ⟨none, some (0, []), 0⟩ ScreenCast.default).2.1 :=
  C10_nonzero_status_discarded
    ⟨some (2, [("session_handle", .str "/org/fdo/session1")]), none, 0⟩
    ⟨some (0, []), none, 0⟩
    ⟨none, some (2, [("streams", .array [])]), 0⟩
    ⟨none, some (0, []), 0⟩
    ScreenCast.default ScreenCast.default ScreenCast.default ScreenCast.default
    2 [("session_handle", .str "/org/fdo/session1")] []
    [("streams", .array [])] []
    (by decide) rfl rfl rfl rfl rfl rfl

/-- Helper: successful `create_session` — status 0, `session_handle`
present as a string that is a valid object path. -/
theorem create_session_ok (b : Broker) (s : ScreenCast)
    (res : List (String × Value)) (p : String)
    (h1 : b.createSessionResponse = some (0, res))
    (h2 : dictGet res "session_handle" = some (.str p))
    (h3 : isValidObjectPath p = true) :
    create_session b s =
      ({ s with counter := s.counter + 1, session := p }, .ok (),
       [Call.createSession
         [("session_handle_token", .str (toString s.counter)),
          ("handle_token", .str (toString s.counter))]]) := by
  simp [create_session, h1, h2, h3]

/-- Helper: successful `start_select` — status 0, `streams` present and
decodable. -/
theorem start_select_ok (b : Broker) (s : ScreenCast)
    (res : List (String × Value)) (v : Value) (l : List SelectedSource)
    (h1 : b.startResponse = some (0, res))
    (h2 : dictGet res "streams" = some v)
    (h3 : decodeSources v = .ok l) :
    start_select b s =
      ({ s with counter := s.counter + 1, selectedSources := l }, .ok (),
       [Call.start s.session ""
         [("handle_token", .str (toString s.counter))]]) := by
  simp [start_select, h1, h2, h3]

/-- Helper: a fully successful run: the four calls in order with their
exact payloads, the final state, and the returned file descriptor. -/
theorem screencast_ok (b : Broker) (s : ScreenCast)
    (res1 res2 : List (String × Value)) (p : String) (v : Value)
    (l : List SelectedSource)
    (h1 : b.createSessionResponse = some (0, res1))
    (h2 : dictGet res1 "session_handle" = some (.str p))
    (h3 : isValidObjectPath p = true)
    (h4 : b.startResponse = some (0, res2))
    (h5 : dictGet res2 "streams" = some v)
    (h6 : decodeSources v = .ok l) :
    screencast b s =
      ({ s with
          hasConnection := true
          counter := s.counter + 4
          session := p
          selectedSources := l },
       .ok b.openRemoteFd,
       [Call.createSession
          [("session_handle_token", .str (toString s.counter)),
           ("handle_token", .str (toString s.counter))],
        Call.selectSources p
          [("handle_token", .str (toString (s.counter + 1))),
           ("multiple", .bool s.multipleSource),
           ("types", .u32 s.sourceType.bits),
           ("persist_mode", .u32 s.persistMode.toU32),
           ("cursor_mode", .u32 s.cursorMode.toU32)],
        Call.start p "" [("handle_token", .str (toString (s.counter + 2)))],
        Call.openPipeWireRemote p []]) := by
  have e1 := create_session_ok b { s with hasConnection := true } res1 p h1 h2 h3
  simp only [screencast, e1, prepare_select]
  simp [start_select, h4, h5, h6, open_remote]

/-- C1 counterexample: in a fully successful handshake from a fresh
session, the four issued calls carry request tokens `"0"`, `"1"`, `"2"`
and NONE — the fourth step (OpenPipeWireRemote) sends an empty options
map with no request token, so the run does not generate four request
tokens from counter values 0, 1, 2, 3, one per step. -/
theorem C1_counterexample :
    (screencast happyBroker ScreenCast.default).2.2.map Call.requestToken =
      [some (.str "0"), some (.str "1"), some (.str "2"), none] :=
  rfl

/-- C1 amended: in every successful handshake from a fresh session
(counter 0), the three token-carrying steps (CreateSession,
SelectSources, Start) carry pairwise distinct request tokens "0", "1",
"2" built from strictly increasing counter values 0, 1, 2, while the
fourth call (OpenPipeWireRemote) carries no request token although the
counter is still incremented for it. -/
theorem C1_request_tokens (b : Broker) (s : ScreenCast)
    (res1 res2 : List (String × Value)) (p : String) (v : Value)
    (l : List SelectedSource)
    (h0 : s.counter = 0)
    (h1 : b.createSessionResponse = some (0, res1))
    (h2 : dictGet res1 "session_handle" = some (.str p))
    (h3 : isValidObjectPath p = true)
    (h4 : b.startResponse = some (0, res2))
    (h5 : dictGet res2 "streams" = some v)
    (h6 : decodeSources v = .ok l) :
    (screencast b s).2.2.map Call.requestToken =
      [some (.str "0"), some (.str "1"), some (.str "2"), none] ∧
    (Value.str "0" ≠ .str "1" ∧ Value.str "0" ≠ .str "2" ∧
     Value.str "1" ≠ .str "2") := by
  rw [screencast_ok b s res1 res2 p v l h1 h2 h3 h4 h5 h6, h0]
  refine ⟨rfl, ?_, ?_, ?_⟩ <;>
    (intro h; injection h with h'; exact absurd h' (by decide))

/-- C1 witness: the successful broker from a fresh default session. -/
theorem C1_request_tokens_witness :
    (screencast happyBroker ScreenCast.default).2.2.map Call.requestToken =
      [some (.str "0"), some (.str "1"), some (.str "2"), none] ∧
    (Value.str "0" ≠ .str "1" ∧ Value.str "0" ≠ .str "2" ∧
     Value.str "1" ≠ .str "2") :=
  C1_request_tokens happyBroker ScreenCast.default
    [("session_handle", .str "/org/fdo/session1")] [("streams", .array [])]
    "/org/fdo/session1" (.array []) []
    rfl rfl rfl rfl rfl rfl rfl

/-- C7: the request-token counter starts at 0 (`ScreenCast::default`),
and each of the four request-issuing operations increments it exactly
once while emitting exactly one outgoing request — so across one
session's lifetime the counter never decreases and never repeats a
value. -/
theorem C7_counter_monotone :
    ScreenCast.default.counter = 0 ∧
    (∀ b s, (create_session b s).1.counter = s.counter + 1 ∧
            (create_session b s).2.2.length = 1) ∧
    (∀ s, (prepare_select s).1.counter = s.counter + 1 ∧
          (prepare_select s).2.2.length = 1) ∧
    (∀ b s, (start_select b s).1.counter = s.counter + 1 ∧
            (start_select b s).2.2.length = 1) ∧
    (∀ b s, (open_remote b s).1.counter = s.counter + 1 ∧
            (open_remote b s).2.2.length = 1) := by
  refine ⟨rfl, ?_, ?_, ?_, ?_⟩
  · intro b s
    unfold create_session
    dsimp only
    repeat' split
    all_goals exact ⟨rfl, rfl⟩
  · intro s
    exact ⟨rfl, rfl⟩
  · intro b s
    unfold start_select
    dsimp only
    repeat' split
    all_goals exact ⟨rfl, rfl⟩
  · intro b s
    exact ⟨rfl, rfl⟩

end XdpScreencast
